import Mathlib

/-!
Verification of the resume-judging core in `backend/gatekeeper/judge.py`.

The Python module is shallowly embedded: Python values flowing through the
JSON pipeline become the inductive type `PyVal`, Python exceptions become
`PyExn`, fallible code returns `Except PyExn`, and every helper function of
the source file is translated one-to-one under its original name.  All text
processing is done on `List Char` (Lean's `String` library functions do not
reduce in the kernel); `String` wrappers keep the source signatures.

Modelling notes, applying throughout:
* Python `str.lower`/`str.upper` are modelled on ASCII via `Char.toLower` /
  `Char.toUpper`; every string the model is evaluated on is ASCII.
* Python whitespace (`str.strip`, regex `\s`) is modelled by the six ASCII
  whitespace characters (space, tab, newline, carriage return, form feed,
  vertical tab); `json` whitespace is the four characters the `json` module
  accepts.
* `google.genai` client objects are abstracted to credential indices, and a
  provider call is an oracle `Nat → String → ProvResult` giving, per
  credential index and model name, either the reply text or an exception.
-/

namespace JudgeModel

/-- Model of the Python values that flow through `judge.py`: the JSON-like
data produced by `json.loads` plus the few other values the module builds. -/
inductive PyVal where
  | none : PyVal
  | bool (b : Bool) : PyVal
  | int (n : Int) : PyVal
  | pfloat (q : Rat) : PyVal
  | nan : PyVal
  | inf : PyVal
  | ninf : PyVal
  | str (s : String) : PyVal
  | list (l : List PyVal) : PyVal
  | dict (kvs : List (String × PyVal)) : PyVal

/-- Data carried by an exception object raised by the provider client:
`str(exc)`, `repr(exc)` and `type(exc).__name__`. -/
structure PyExcInfo where
  msg : String
  rep : String
  tyName : String
deriving DecidableEq

/-- Python exceptions relevant to `judge.py`'s handlers.  `jsonDecode` is
`json.JSONDecodeError`, a subclass of `ValueError` that `analyze_resume_ats`
catches by its own clause before the `ValueError` clause. -/
inductive PyExn where
  | jsonDecode (msg : String)
  | valueError (msg : String)
  | typeError (msg : String)
  | attributeError (msg : String)
  | keyError (msg : String)
  | provider (e : PyExcInfo)
deriving DecidableEq

/-- ASCII whitespace recognised by Python `str.strip` and by regex `\s`
(space, tab, LF, CR, FF, VT). -/
def pySpace (c : Char) : Bool :=
  c = ' ' || c = '\t' || c = '\n' || c = '\r' || c.toNat = 12 || c.toNat = 11

/-- Whitespace accepted between tokens by Python's `json` module. -/
def jsonSpace (c : Char) : Bool :=
  c = ' ' || c = '\t' || c = '\n' || c = '\r'

/-- Python `str.strip()` on a character list. -/
def stripList (l : List Char) : List Char :=
  ((l.dropWhile pySpace).reverse.dropWhile pySpace).reverse

/-- Python `str.strip()`. -/
def pyStrip (s : String) : String :=
  String.mk (stripList s.toList)

/-- Python `str.rstrip()` on a character list. -/
def rstripList (l : List Char) : List Char :=
  (l.reverse.dropWhile pySpace).reverse

/-- Python `needle in hay` substring test on character lists. -/
def listHasInfix (needle : List Char) : List Char → Bool
  | [] => needle.isEmpty
  | c :: t => needle.isPrefixOf (c :: t) || listHasInfix needle t

/-- Python `needle in hay` on strings. -/
def strContains (hay needle : String) : Bool :=
  listHasInfix needle.toList hay.toList

/-- Python `str.lower()` (ASCII). -/
def lowerStr (s : String) : String :=
  String.mk (s.toList.map Char.toLower)

/-- Python `str.upper()` (ASCII). -/
def upperStr (s : String) : String :=
  String.mk (s.toList.map Char.toUpper)

/-- Value of a non-empty all-digit character list, as read by Python `int`. -/
def digitsVal (l : List Char) : Nat :=
  l.foldl (fun a c => a * 10 + (c.toNat - 48)) 0

/-- First-occurrence lookup in a Python dict modelled as an association
list.  Dicts built by this model always have unique keys (`dictSet`
overwrites), so this is Python dict lookup. -/
def dictLookup (kvs : List (String × PyVal)) (k : String) : Option PyVal :=
  match kvs with
  | [] => Option.none
  | (k', v) :: t => if k' = k then some v else dictLookup t k

/-- Python `d[k] = v` / key insertion used when `json.loads` builds an
object: a repeated key overwrites the earlier value (last one wins). -/
def dictSet (kvs : List (String × PyVal)) (k : String) (v : PyVal) :
    List (String × PyVal) :=
  match kvs with
  | [] => [(k, v)]
  | (k', v') :: t => if k' = k then (k, v) :: t else (k', v') :: dictSet t k v

/-- Python truthiness of a `PyVal` (`bool(x)`). -/
def pyTruthy (v : PyVal) : Bool :=
  match v with
  | .none => false
  | .bool b => b
  | .int n => n ≠ 0
  | .pfloat q => q ≠ 0
  | .nan => true
  | .inf => true
  | .ninf => true
  | .str s => s ≠ ""
  | .list l => !l.isEmpty
  | .dict d => !d.isEmpty

/-- Python `x == s` where `s` is a `str` literal: true exactly when `x` is
an equal string (values of other types are never equal to a string). -/
def pyEqStr (v : PyVal) (s : String) : Bool :=
  match v with
  | .str t => t = s
  | _ => false

/-- Python `d.get(k, default)`; raises `AttributeError` when the receiver is
not a dict. -/
def pyGet (v : PyVal) (k : String) (dflt : PyVal) : Except PyExn PyVal :=
  match v with
  | .dict kvs => .ok ((dictLookup kvs k).getD dflt)
  | _ => .error (.attributeError "object has no attribute get")

/-- Python `k in v` for a string `k`: key test on dicts, substring test on
strings, membership on lists; `TypeError` on non-container values. -/
def pyIn (k : String) (v : PyVal) : Except PyExn Bool :=
  match v with
  | .dict kvs => .ok (dictLookup kvs k).isSome
  | .str s => .ok (strContains s k)
  | .list l => .ok (l.any (fun e => pyEqStr e k))
  | _ => .error (.typeError "argument is not iterable")

/-- Python `str(score).isdigit()` for the values this model can hold:
true for non-negative ints and for non-empty all-digit strings (`str` of a
bool, float, `None`, list or dict is never all digits). -/
def pyStrIsdigit (v : PyVal) : Bool :=
  match v with
  | .int n => decide (0 ≤ n)
  | .str s => !s.toList.isEmpty && s.toList.all Char.isDigit
  | _ => false

/-- Python `int(score)`, used in the source only under a
`str(score).isdigit()` guard, so only on non-negative ints and digit
strings. -/
def pyToInt (v : PyVal) : Int :=
  match v with
  | .int n => n
  | .str s => (digitsVal s.toList : Int)
  | _ => 0

/-- Python `isinstance(x, int)` — note `bool` is a subclass of `int`. -/
def pyIsInt (v : PyVal) : Bool :=
  match v with
  | .int _ => true
  | .bool _ => true
  | _ => false

/-- Python `isinstance(x, list)`. -/
def pyIsList (v : PyVal) : Bool :=
  match v with
  | .list _ => true
  | _ => false

/-- Python `int(b)` on a value known to be an int or a bool. -/
def pyIntOf (v : PyVal) : Int :=
  match v with
  | .int n => n
  | .bool b => if b then 1 else 0
  | _ => 0

/-!  `judge.py` lines 26–67: `_extract_first_json_object`. -/

/-- Loop of `_extract_first_json_object` (judge.py lines 42–65), started at
the first `{`.  Returns the number of characters consumed up to and
including the `}` at which the nesting depth returns to zero, `none` if the
scan runs out of text.  State mirrors the Python loop exactly: `depth`,
`in_string`, `escape_next`. -/
def jsonScan : List Char → Int → Bool → Bool → Option Nat
  | [], _, _, _ => Option.none
  | c :: cs, depth, inStr, esc =>
    if esc then (jsonScan cs depth inStr false).map (· + 1)
    else if c = '\\' then (jsonScan cs depth inStr true).map (· + 1)
    else if c = '"' then (jsonScan cs depth (!inStr) esc).map (· + 1)
    else if inStr then (jsonScan cs depth inStr esc).map (· + 1)
    else if c = '{' then (jsonScan cs (depth + 1) inStr esc).map (· + 1)
    else if c = '}' then
      if depth - 1 = 0 then some 1
      else (jsonScan cs (depth - 1) inStr esc).map (· + 1)
    else (jsonScan cs depth inStr esc).map (· + 1)

/-- Python `text.find(ch)` for a single character (`none` for `-1`). -/
def findCharIdx (ch : Char) : List Char → Option Nat
  | [] => Option.none
  | c :: t => if c = ch then some 0 else (findCharIdx ch t).map (· + 1)

/-- Extract the first top-level JSON object from text by matching braces
while respecting string literals and escapes (judge.py lines 26–67). -/
def _extract_first_json_object (text : String) : Option String :=
  (findCharIdx '{' text.toList).bind (fun i =>
    (jsonScan (text.toList.drop i) 0 false false).map
      (fun n => String.mk ((text.toList.drop i).take n)))

/-!  `judge.py` lines 70–91: error classifiers. -/

/-- Classifier from judge.py lines 70–79. -/
def _is_quota_error (e : PyExcInfo) : Bool :=
  let s := lowerStr e.msg
  let r := lowerStr e.rep
  strContains s "429" || strContains r "429" || strContains s "quota" ||
    strContains s "rate limit" || strContains s "resource_exhausted"

/-- Classifier from judge.py lines 82–91. -/
def _is_auth_error (e : PyExcInfo) : Bool :=
  let s := lowerStr e.msg
  let r := lowerStr e.rep
  strContains s "401" || strContains r "401" || strContains s "unauthorized" ||
    strContains s "invalid api key" || strContains s "authentication"

/-!  `judge.py` lines 94–112: `_repair_common_json_issues`. -/

/-- Smart-quote normalisation (judge.py line 107): the three single-character
`str.replace` calls are a single character map, since the three source
characters are distinct from each other and from the replacements. -/
def smartQuoteFix (c : Char) : Char :=
  if c = '“' then '"' else if c = '”' then '"'
  else if c = '’' then '\x27' else c

/-- One pass of `re.sub(",\\s*([}\\]])", "\\1", text)` (judge.py line 110):
a comma followed by optional whitespace and a closing bracket is replaced by
the bracket; scanning resumes after the bracket.  Fuel is one more than the
list length, which the wrapper always supplies, so the fuel-out branch is
unreachable. -/
def removeTrailingCommasF : Nat → List Char → List Char
  | 0, cs => cs
  | _ + 1, [] => []
  | fuel + 1, c :: rest =>
    if c = ',' then
      match rest.dropWhile pySpace with
      | [] => ',' :: removeTrailingCommasF fuel rest
      | b :: rest2 =>
        if b = '}' || b = ']' then b :: removeTrailingCommasF fuel rest2
        else ',' :: removeTrailingCommasF fuel rest
    else c :: removeTrailingCommasF fuel rest

/-- Best-effort repair for common LLM JSON mistakes (judge.py lines
94–112): strip, smart-quote substitution, trailing-comma removal. -/
def _repair_common_json_issues (text : String) : String :=
  if text = "" then text
  else
    let repaired := stripList text.toList
    let repaired := repaired.map smartQuoteFix
    String.mk (removeTrailingCommasF (repaired.length + 1) repaired)

/-!  Model of `json.loads` (Python standard library), as used by judge.py.

The parser follows the stdlib `json` grammar: RFC-8259 values plus the
Python extensions `NaN`, `Infinity`, `-Infinity`; strict mode (unescaped
control characters in strings are errors); duplicate object keys resolved
last-one-wins.  Every failure of `json.loads` is a `json.JSONDecodeError`,
so the error type is its message (positions omitted from messages).  The
parser is fueled; the wrapper supplies `length + 1`, which exceeds any
possible recursion depth, so fuel exhaustion is unreachable.  Surrogate-pair
combination for `\uXXXX` escapes is not modelled (no evaluated input
contains a `\u` escape). -/

/-- Hex digit value. -/
def hexVal (c : Char) : Option Nat :=
  if c.isDigit then some (c.toNat - 48)
  else if 'a' ≤ c && c ≤ 'f' then some (c.toNat - 87)
  else if 'A' ≤ c && c ≤ 'F' then some (c.toNat - 55)
  else Option.none

/-- Skip JSON inter-token whitespace. -/
def skipJsonWs (l : List Char) : List Char :=
  l.dropWhile jsonSpace

/-- Parse a JSON string body, the opening quote already consumed.  Returns
the decoded characters and the rest after the closing quote. -/
def parseStr : Nat → List Char → Except String (List Char × List Char)
  | 0, _ => .error "fuel exhausted"
  | _ + 1, [] => .error "Unterminated string starting at"
  | fuel + 1, c :: cs =>
    if c = '"' then .ok ([], cs)
    else if c = '\\' then
      match cs with
      | [] => .error "Unterminated string starting at"
      | e :: cs2 =>
        if e = 'u' then
          match cs2 with
          | h1 :: h2 :: h3 :: h4 :: cs3 =>
            match hexVal h1, hexVal h2, hexVal h3, hexVal h4 with
            | some a, some b, some c1, some d =>
              let code := ((a * 16 + b) * 16 + c1) * 16 + d
              (parseStr fuel cs3).map (fun p => (Char.ofNat code :: p.1, p.2))
            | _, _, _, _ => .error "Invalid \\uXXXX escape"
          | _ => .error "Invalid \\uXXXX escape"
        else
          match
            (if e = '"' then some '"'
             else if e = '\\' then some '\\'
             else if e = '/' then some '/'
             else if e = 'b' then some '\x08'
             else if e = 'f' then some '\x0c'
             else if e = 'n' then some '\n'
             else if e = 'r' then some '\r'
             else if e = 't' then some '\t'
             else Option.none) with
          | some d => (parseStr fuel cs2).map (fun p => (d :: p.1, p.2))
          | Option.none => .error "Invalid \\escape"
    else if c.toNat < 32 then .error "Invalid control character"
    else (parseStr fuel cs).map (fun p => (c :: p.1, p.2))

/-- Parse the integer part of a JSON number: `0` or a nonzero digit
followed by digits. -/
def parseIntDigits : List Char → Option (List Char × List Char)
  | '0' :: t => some (['0'], t)
  | c :: t =>
    if c.isDigit then some (c :: t.takeWhile Char.isDigit, t.dropWhile Char.isDigit)
    else Option.none
  | [] => Option.none

/-- Parse a JSON number at the head of the input (stdlib `NUMBER_RE`):
`-?(0|[1-9]\d*)(\.\d+)?([eE][-+]?\d+)?`.  Ints become `PyVal.int`; values
with a fraction or exponent become `PyVal.pfloat` (a rational stands in for
the Python float — no theorem inspects such a value). -/
def parseNumber (l : List Char) : Except String (PyVal × List Char) :=
  let p := match l with
    | '-' :: t => (true, t)
    | _ => (false, l)
  match parseIntDigits p.2 with
  | Option.none => .error "Expecting value"
  | some (ip, r1) =>
    let pf : List Char × List Char :=
      match r1 with
      | '.' :: t =>
        let ds := t.takeWhile Char.isDigit
        if ds.isEmpty then ([], r1) else (ds, t.dropWhile Char.isDigit)
      | _ => ([], r1)
    let pe : Option Int × List Char :=
      match pf.2 with
      | e :: t =>
        if e = 'e' || e = 'E' then
          let st : Int × List Char :=
            match t with
            | '-' :: u => (-1, u)
            | '+' :: u => (1, u)
            | _ => (1, t)
          let ds := st.2.takeWhile Char.isDigit
          if ds.isEmpty then (Option.none, pf.2)
          else (some (st.1 * (digitsVal ds : Int)), st.2.dropWhile Char.isDigit)
        else (Option.none, pf.2)
      | [] => (Option.none, pf.2)
    if pf.1.isEmpty && pe.1.isNone then
      .ok (.int ((if p.1 then -1 else 1) * (digitsVal ip : Int)), r1)
    else
      let mant : Int := (digitsVal (ip ++ pf.1) : Int)
      let q : Rat :=
        (if p.1 then -1 else 1) * (mant : Rat) / ((10 : Rat) ^ pf.1.length) *
          ((10 : Rat) ^ (pe.1.getD 0))
      .ok (.pfloat q, pe.2)

mutual

/-- Parse a JSON value after optional leading whitespace. -/
def parseValue : Nat → List Char → Except String (PyVal × List Char)
  | 0, _ => .error "fuel exhausted"
  | fuel + 1, l =>
    match skipJsonWs l with
    | [] => .error "Expecting value"
    | '{' :: rest => parseObjBody fuel true [] rest
    | '[' :: rest => parseArrBody fuel true [] rest
    | '"' :: rest => (parseStr fuel rest).map (fun p => (.str (String.mk p.1), p.2))
    | 't' :: rest =>
      if ['r', 'u', 'e'].isPrefixOf rest then .ok (.bool true, rest.drop 3)
      else .error "Expecting value"
    | 'f' :: rest =>
      if ['a', 'l', 's', 'e'].isPrefixOf rest then .ok (.bool false, rest.drop 4)
      else .error "Expecting value"
    | 'n' :: rest =>
      if ['u', 'l', 'l'].isPrefixOf rest then .ok (.none, rest.drop 3)
      else .error "Expecting value"
    | 'N' :: rest =>
      if ['a', 'N'].isPrefixOf rest then .ok (.nan, rest.drop 2)
      else .error "Expecting value"
    | 'I' :: rest =>
      if ['n', 'f', 'i', 'n', 'i', 't', 'y'].isPrefixOf rest then .ok (.inf, rest.drop 7)
      else .error "Expecting value"
    | '-' :: 'I' :: rest =>
      if ['n', 'f', 'i', 'n', 'i', 't', 'y'].isPrefixOf rest then .ok (.ninf, rest.drop 7)
      else .error "Expecting value"
    | c :: rest => parseNumber (c :: rest)

/-- Parse an object body after `{` (or after a `,` when `first = false`). -/
def parseObjBody : Nat → Bool → List (String × PyVal) → List Char →
    Except String (PyVal × List Char)
  | 0, _, _, _ => .error "fuel exhausted"
  | fuel + 1, first, kvs, l =>
    match skipJsonWs l with
    | '}' :: r =>
      if first then .ok (.dict kvs, r)
      else .error "Expecting property name enclosed in double quotes"
    | '"' :: r =>
      match parseStr fuel r with
      | .error e => .error e
      | .ok (key, r2) =>
        match skipJsonWs r2 with
        | ':' :: r4 =>
          match parseValue fuel r4 with
          | .error e => .error e
          | .ok (v, r5) =>
            match skipJsonWs r5 with
            | ',' :: r7 => parseObjBody fuel false (dictSet kvs (String.mk key) v) r7
            | '}' :: r7 => .ok (.dict (dictSet kvs (String.mk key) v), r7)
            | _ => .error "Expecting , delimiter"
        | _ => .error "Expecting : delimiter"
    | _ => .error "Expecting property name enclosed in double quotes"

/-- Parse an array body after `[` (or after a `,` when `first = false`). -/
def parseArrBody : Nat → Bool → List PyVal → List Char →
    Except String (PyVal × List Char)
  | 0, _, _, _ => .error "fuel exhausted"
  | fuel + 1, first, acc, l =>
    match skipJsonWs l with
    | ']' :: r =>
      if first then .ok (.list acc.reverse, r)
      else .error "Expecting value"
    | l2 =>
      match parseValue fuel l2 with
      | .error e => .error e
      | .ok (v, r) =>
        match skipJsonWs r with
        | ',' :: r3 => parseArrBody fuel false (v :: acc) r3
        | ']' :: r3 => .ok (.list (v :: acc).reverse, r3)
        | _ => .error "Expecting , delimiter"

end

/-- Model of `json.loads`: parse one value, then require only whitespace to
remain (else `Extra data`).  Every error is a `json.JSONDecodeError`, whose
message is the carried string. -/
def json_loads (s : String) : Except String PyVal :=
  match parseValue (s.toList.length + 1) s.toList with
  | .error e => .error e
  | .ok (v, rest) =>
    if (skipJsonWs rest).isEmpty then .ok v else .error "Extra data"

/-!  `judge.py` lines 115–172: `_salvage_minimal_ats_payload`, and its regex
searches `re.search(r'"key"\s*:\s*"([^"]*)', text)` and
`re.search(r'"key"\s*:\s*(\d+)', text)`. -/

/-- Try `"key"\s*:\s*"([^"]*)` at the head of `l`; on success return the
capture (the maximal run of non-quote characters after the opening quote). -/
def matchKeyStr (key : List Char) (l : List Char) : Option (List Char) :=
  if key.isPrefixOf l then
    match (l.drop key.length).dropWhile pySpace with
    | ':' :: r2 =>
      match r2.dropWhile pySpace with
      | '"' :: r3 => some (r3.takeWhile (· ≠ '"'))
      | _ => Option.none
    | _ => Option.none
  else Option.none

/-- Leftmost match of `"key"\s*:\s*"([^"]*)` (`re.search` semantics: try
each start position left to right). -/
def searchKeyStr (key : List Char) : List Char → Option (List Char)
  | [] => Option.none
  | c :: t =>
    match matchKeyStr key (c :: t) with
    | some cap => some cap
    | Option.none => searchKeyStr key t

/-- Try `"key"\s*:\s*(\d+)` at the head of `l`. -/
def matchKeyNum (key : List Char) (l : List Char) : Option (List Char) :=
  if key.isPrefixOf l then
    match (l.drop key.length).dropWhile pySpace with
    | ':' :: r2 =>
      let ds := (r2.dropWhile pySpace).takeWhile Char.isDigit
      if ds.isEmpty then Option.none else some ds
    | _ => Option.none
  else Option.none

/-- Leftmost match of `"key"\s*:\s*(\d+)`. -/
def searchKeyNum (key : List Char) : List Char → Option (List Char)
  | [] => Option.none
  | c :: t =>
    match matchKeyNum key (c :: t) with
    | some cap => some cap
    | Option.none => searchKeyNum key t

/-- Build a minimal valid ATS payload from a truncated response (judge.py
lines 115–172). -/
def _salvage_minimal_ats_payload (text : String) : PyVal :=
  let name :=
    match searchKeyStr "\x22candidate_name\x22".toList text.toList with
    | some cap =>
      let s := stripList cap
      if s.isEmpty then "Unknown" else String.mk s
    | Option.none => "Unknown"
  let score : Int :=
    match searchKeyNum "\x22overall_score\x22".toList text.toList with
    | some ds => (digitsVal ds : Int)
    | Option.none => 0
  let verdict :=
    match searchKeyStr "\x22verdict\x22".toList text.toList with
    | some cap =>
      let raw := (stripList cap).map Char.toLower
      if "short".toList.isPrefixOf raw then "Shortlist"
      else if "border".toList.isPrefixOf raw then "Borderline"
      else if "reject".toList.isPrefixOf raw then "Reject"
      else "ERROR"
    | Option.none => "ERROR"
  .dict [
    ("candidate_name", .str name),
    ("overall_score", .int score),
    ("verdict", .str verdict),
    ("track_scores", .dict [
      ("product_based", .int score),
      ("service_based", .int score),
      ("incubator_startup", .int score)]),
    ("detailed_analysis", .dict [
      ("strengths", .list []),
      ("weaknesses", .list
        [.str "Model response was truncated before full JSON could be returned."]),
      ("actionable_improvements", .list
        [.str "Retry once. If it repeats, shorten resume text or reduce traffic."])]),
    ("interview_questions", .dict [
      ("technical", .str "None"),
      ("behavioral", .str "None")])]

/-!  `judge.py` lines 175–218: `_salvage_without_detailed_analysis`. -/

/-- Python `text.find(needle)` (leftmost index, `none` for `-1`). -/
def findSub (needle : List Char) : List Char → Option Nat
  | [] => if needle.isEmpty then some 0 else Option.none
  | c :: t =>
    if needle.isPrefixOf (c :: t) then some 0
    else (findSub needle t).map (· + 1)

/-- Python `text.rfind(ch)` for a single character (`-1` when absent). -/
def rfindChar (ch : Char) (l : List Char) : Int :=
  match l.reverse.findIdx? (· = ch) with
  | some j => (l.length : Int) - 1 - (j : Int)
  | Option.none => -1

/-- The `minimal_tail` string literal of judge.py lines 192–203 (adjacent
Python string literals concatenated). -/
def minimalTail : String :=
  "\x22detailed_analysis\x22: \x7b\x22strengths\x22: [],\x22weaknesses\x22: [],\x22actionable_improvements\x22: []\x7d,\x22interview_questions\x22: \x7b\x22technical\x22: \x22\x22,\x22behavioral\x22: \x22\x22\x7d\x7d"

/-- Best-effort salvage keeping everything before `"detailed_analysis"`
(judge.py lines 175–218); the surrounding `try` turns any exception into
`None`, so a parse failure of the reassembled text yields `none`. -/
def _salvage_without_detailed_analysis (text : String) : Option PyVal :=
  match findSub "\x22detailed_analysis\x22".toList text.toList with
  | Option.none => Option.none
  | some idx =>
    let pre := rstripList (text.toList.take idx)
    let pre :=
      match pre.getLast? with
      | some ',' => pre.dropLast
      | _ => pre
    let json_text :=
      if (stripList pre).getLast? = some '{' then pre ++ minimalTail.toList
      else
        let last_comma := rfindChar ',' pre
        let last_brace := rfindChar '{' pre
        let pre2 := if last_comma > last_brace then pre.take (last_comma + 1).toNat else pre
        pre2 ++ minimalTail.toList
    match json_loads (_repair_common_json_issues (String.mk json_text)) with
    | .ok v => some v
    | .error _ => Option.none

/-!  `judge.py` lines 221–270: `_normalize_to_ats_schema`.

The function is `Except`-valued because of one genuine failure mode of the
source: in the legacy branch, `(data.get("verdict") or "").strip()` raises
`AttributeError` when the stored verdict is a truthy non-string. -/

/-- Normalize common model/schema deviations into the ATS schema (judge.py
lines 221–270). -/
def _normalize_to_ats_schema (data : PyVal) : Except PyExn PyVal :=
  match data with
  | .dict kvs =>
    if (dictLookup kvs "overall_score").isSome &&
        (dictLookup kvs "track_scores").isSome &&
        (dictLookup kvs "detailed_analysis").isSome then
      .ok (.dict kvs)
    else if (dictLookup kvs "signal_score").isSome &&
        ((dictLookup kvs "red_flags").isSome ||
          (dictLookup kvs "brutal_feedback").isSome) then
      let score := (dictLookup kvs "signal_score").getD (.int 0)
      let vgot := (dictLookup kvs "verdict").getD .none
      let vor := if pyTruthy vgot then vgot else .str ""
      match vor with
      | .str vs =>
        let vup := upperStr (pyStrip vs)
        let verdict :=
          if vup = "PASS" || vup = "SHORTLIST" then "Shortlist"
          else if vup = "BORDERLINE" then "Borderline"
          else if vup = "REJECTED" || vup = "REJECT" then "Reject"
          else if vup = "ERROR" then "ERROR"
          else "Reject"
        let weaknesses : PyVal :=
          match dictLookup kvs "red_flags" with
          | some (.list l) => .list l
          | _ => .list []
        let tgot := (dictLookup kvs "interview_question").getD .none
        let technical_q := if pyTruthy tgot then tgot else .str "None"
        let scoreInt : Int := if pyStrIsdigit score then pyToInt score else 0
        .ok (.dict [
          ("candidate_name", (dictLookup kvs "candidate_name").getD (.str "Unknown")),
          ("overall_score", .int scoreInt),
          ("verdict", .str verdict),
          ("track_scores", .dict [
            ("product_based", .int scoreInt),
            ("service_based", .int scoreInt),
            ("incubator_startup", .int scoreInt)]),
          ("detailed_analysis", .dict [
            ("strengths", .list []),
            ("weaknesses",
              if pyTruthy weaknesses then weaknesses
              else .list [.str "Model returned legacy schema; normalized automatically."]),
            ("actionable_improvements", .list [])]),
          ("interview_questions", .dict [
            ("technical", technical_q),
            ("behavioral",
              .str "Tell me about a time you worked with a team under a deadline. What did you do?")])])
      | _ => .error (.attributeError "strip")
    else .ok (.dict kvs)
  | _ => .ok data

/-!  `judge.py` lines 273–282: `_guess_candidate_name`. -/

/-- Split off the first line at `\n`, `\r\n` or `\r` (the line terminators
`str.splitlines` recognises that can occur in this model's ASCII inputs). -/
def breakLine : List Char → List Char × List Char
  | [] => ([], [])
  | '\r' :: '\n' :: t => ([], t)
  | '\r' :: t => ([], t)
  | '\n' :: t => ([], t)
  | c :: t =>
    let p := breakLine t
    (c :: p.1, p.2)

/-- Python `str.splitlines()` (fueled; wrapper supplies `length + 1`). -/
def splitLinesF : Nat → List Char → List (List Char)
  | 0, _ => []
  | _ + 1, [] => []
  | fuel + 1, l =>
    let p := breakLine l
    p.1 :: splitLinesF fuel p.2

/-- Python `str.split()` with no argument: maximal non-whitespace runs
(fueled; wrapper supplies `length + 1`). -/
def splitWsF : Nat → List Char → List (List Char)
  | 0, _ => []
  | fuel + 1, l =>
    match l.dropWhile pySpace with
    | [] => []
    | l2 =>
      l2.takeWhile (fun c => !pySpace c) ::
        splitWsF fuel (l2.dropWhile (fun c => !pySpace c))

/-- Guess the candidate name from the first non-blank resume line (judge.py
lines 273–282). -/
def _guess_candidate_name (resume_text : String) : String :=
  if resume_text = "" then "Unknown"
  else
    let lines :=
      ((splitLinesF (resume_text.toList.length + 1) resume_text.toList).map
        stripList).filter (fun l => !l.isEmpty)
    match lines with
    | [] => "Unknown"
    | first :: _ =>
      if (splitWsF (first.length + 1) first).length ≤ 5 then
        String.mk (first.take 80)
      else "Unknown"

/-!  `judge.py` lines 285–344: `_local_ats_fallback`. -/

/-- Python `any(k in text for k in ks)`. -/
def containsAny (text : String) (ks : List String) : Bool :=
  ks.any (fun k => strContains text k)

/-- Keyword score accumulated by judge.py lines 290–302 before clamping:
base 45 plus the six independent keyword-group increments. -/
def fallbackKeywordScore (resume_text : String) : Int :=
  let text := lowerStr resume_text
  45 + (if strContains text "intern" then 12 else 0)
    + (if strContains text "github" then 8 else 0)
    + (if strContains text "project" then 8 else 0)
    + (if containsAny text ["react", "node", "python", "java", "sql", "api", "docker"]
        then 10 else 0)
    + (if containsAny text ["leetcode", "codeforces", "dsa", "algorithm"]
        then 8 else 0)
    + (if containsAny text ["aws", "gcp", "azure", "deploy", "deployed"]
        then 6 else 0)

/-- The clamped fallback score, `max(30, min(score, 82))` (judge.py line
303). -/
def fallbackScore (resume_text : String) : Int :=
  max 30 (min (fallbackKeywordScore resume_text) 82)

/-- Local non-LLM fallback scorer (judge.py lines 285–344). -/
def _local_ats_fallback (resume_text : String) (reason : String) : PyVal :=
  let score := fallbackScore resume_text
  let verdict :=
    if score ≥ 75 then "Shortlist"
    else if score ≥ 60 then "Borderline"
    else "Reject"
  let note := if reason ≠ "" then reason
    else "Cloud model unavailable; used local heuristic evaluation."
  let name := _guess_candidate_name resume_text
  .dict [
    ("candidate_name", .str name),
    ("overall_score", .int score),
    ("verdict", .str verdict),
    ("track_scores", .dict [
      ("product_based", .int (max 0 (min 100 (score - 2)))),
      ("service_based", .int (max 0 (min 100 (score + 2)))),
      ("incubator_startup", .int (max 0 (min 100 (score + 1))))]),
    ("detailed_analysis", .dict [
      ("strengths", .list [
        .str "Resume processed successfully with offline fallback logic.",
        .str "Core technical keywords and project evidence were detected.",
        .str "Result generated despite external API unavailability."]),
      ("weaknesses", .list [
        .str note,
        .str "This score is approximate and less detailed than LLM output.",
        .str "Re-run after quota reset for richer ATS analysis."]),
      ("actionable_improvements", .list [
        .str "[Product] Add DSA profile link and solved problems count.",
        .str "[Service] Quantify internship/project outcomes with clear metrics.",
        .str "[Startup] Add deployed links, demo video, and README proof."])]),
    ("interview_questions", .dict [
      ("technical", .str "Explain one project architecture and tradeoffs you chose."),
      ("behavioral", .str "Describe a tight-deadline collaboration and your contribution.")])]

/-!  `judge.py` lines 564–597: the credential × model failover loop of
`analyze_resume_ats`.  A provider call is an oracle
`f : Nat → String → ProvResult` mapping (credential index, model name) to
the reply text or to the exception the call raises. -/

/-- Outcome of one `client.models.generate_content` call. -/
inductive ProvResult where
  | success (text : String)
  | exc (e : PyExcInfo)

/-- State produced by the failover loop: the attempts made in order, the
first successful reply, the two error counters, and the exception
re-raised out of the loop when one is unclassified. -/
structure FailoverState where
  attempts : List (Nat × String)
  response : Option String
  auth_errors : Nat
  quota_errors : Nat
  raised : Option PyExcInfo
deriving DecidableEq

/-- The `model_candidates` list of judge.py line 567. -/
def model_candidates : List String := ["gemini-2.5-flash", "gemini-1.5-flash"]

/-- Inner loop of judge.py lines 570–588: for one credential, try each
model; auth and quota errors each `continue` to the next model, an
unclassified error is re-raised, success breaks. -/
def runModels (f : Nat → String → ProvResult) (k : Nat) :
    List String → Nat → Nat → FailoverState
  | [], a, q => ⟨[], Option.none, a, q, Option.none⟩
  | m :: ms, a, q =>
    match f k m with
    | .success t => ⟨[(k, m)], some t, a, q, Option.none⟩
    | .exc e =>
      if _is_auth_error e then
        let st := runModels f k ms (a + 1) q
        ⟨(k, m) :: st.attempts, st.response, st.auth_errors, st.quota_errors, st.raised⟩
      else if _is_quota_error e then
        let st := runModels f k ms a (q + 1)
        ⟨(k, m) :: st.attempts, st.response, st.auth_errors, st.quota_errors, st.raised⟩
      else ⟨[(k, m)], Option.none, a, q, some e⟩

/-- Outer loop of judge.py lines 569–590: iterate credentials, breaking as
soon as a response was obtained; a raised exception propagates. -/
def runClients (f : Nat → String → ProvResult) :
    List Nat → Nat → Nat → FailoverState
  | [], a, q => ⟨[], Option.none, a, q, Option.none⟩
  | k :: ks, a, q =>
    let st := runModels f k model_candidates a q
    match st.raised with
    | some _ => st
    | Option.none =>
      match st.response with
      | some _ => st
      | Option.none =>
        let st2 := runClients f ks st.auth_errors st.quota_errors
        ⟨st.attempts ++ st2.attempts, st2.response, st2.auth_errors,
          st2.quota_errors, st2.raised⟩

/-!  `judge.py` lines 652–654: code-fence stripping,
`re.sub(r'^```json\s*', '', raw, flags=re.MULTILINE)` then
`re.sub(r'\s*```$', '', ..., flags=re.MULTILINE)` then `.strip()`. -/

/-- One left-to-right pass of `re.sub(r'^```json\s*', '', text, re.M)`:
at a line start, a literal ```` ```json ```` and the following maximal
whitespace run are deleted; scanning resumes after the deleted run, which
is a line start again only if the run ended in a newline. -/
def stripFenceOpenF : Nat → Bool → List Char → List Char
  | 0, _, cs => cs
  | _ + 1, _, [] => []
  | fuel + 1, atStart, c :: rest =>
    if atStart && "```json".toList.isPrefixOf (c :: rest) then
      let afterLit := (c :: rest).drop 7
      let rest2 := afterLit.dropWhile pySpace
      let newAt :=
        match (afterLit.takeWhile pySpace).getLast? with
        | some '\n' => true
        | _ => false
      stripFenceOpenF fuel newAt rest2
    else c :: stripFenceOpenF fuel (c = '\n') rest

/-- True when a position is at an end of line for `$` in MULTILINE mode:
end of text or immediately before a newline. -/
def atEol : List Char → Bool
  | [] => true
  | '\n' :: _ => true
  | _ => false

/-- One left-to-right pass of `re.sub(r'\s*```$', '', text, re.M)`: a
maximal whitespace run followed by a literal ```` ``` ```` at end of line is
deleted (a shorter run cannot match, since the next character would be
whitespace, not a backtick). -/
def stripFenceCloseF : Nat → List Char → List Char
  | 0, cs => cs
  | _ + 1, [] => []
  | fuel + 1, c :: rest =>
    let afterWs := (c :: rest).dropWhile pySpace
    if "```".toList.isPrefixOf afterWs && atEol (afterWs.drop 3) then
      stripFenceCloseF fuel (afterWs.drop 3)
    else c :: stripFenceCloseF fuel rest

/-- The `clean_text` computation of judge.py lines 652–654. -/
def cleanResponseText (raw_text : String) : String :=
  let c1 := stripFenceOpenF (raw_text.toList.length + 1) true raw_text.toList
  let c2 := stripFenceCloseF (c1.length + 1) c1
  String.mk (stripList c2)

/-!  `judge.py` lines 669–688: the JSON recovery pipeline. -/

/-- The parse-with-fallbacks block of judge.py lines 669–688: direct parse;
else balanced extraction (whose repaired parse failure ESCAPES this block
as a `JSONDecodeError`, to be caught by the enclosing handler); else
partial-section salvage; else whole-text repair; else minimal payload. -/
def recoverJson (clean_text : String) : Except PyExn PyVal :=
  match json_loads clean_text with
  | .ok d => .ok d
  | .error _ =>
    match _extract_first_json_object clean_text with
    | some extracted =>
      (json_loads (_repair_common_json_issues extracted)).mapError .jsonDecode
    | Option.none =>
      match _salvage_without_detailed_analysis clean_text with
      | some d => .ok d
      | Option.none =>
        match json_loads (_repair_common_json_issues clean_text) with
        | .ok d => .ok d
        | .error _ => .ok (_salvage_minimal_ats_payload clean_text)

/-!  `judge.py` lines 693–723: required-field validation. -/

/-- Python `v[k]` for a string key. -/
def pySubscript (v : PyVal) (k : String) : Except PyExn PyVal :=
  match v with
  | .dict kvs =>
    match dictLookup kvs k with
    | some x => .ok x
    | Option.none => .error (.keyError k)
  | .str _ => .error (.typeError "string indices must be integers")
  | .list _ => .error (.typeError "list indices must be integers")
  | _ => .error (.typeError "object is not subscriptable")

/-- The `required_fields` list of judge.py lines 694–695. -/
def required_fields : List String :=
  ["candidate_name", "overall_score", "verdict", "track_scores",
   "detailed_analysis", "interview_questions"]

/-- The `for field in required_fields` loop of judge.py lines 696–698. -/
def checkFields (data : PyVal) : List String → Except PyExn Unit
  | [] => .ok ()
  | k :: t =>
    match pyIn k data with
    | .error e => .error e
    | .ok b =>
      if b then checkFields data t
      else .error (.valueError ("Missing required field: " ++ k))

/-- Membership check of three keys in a subobject, as in judge.py lines
701–715 (`'k' not in data['sub'] or ...` — the subscript is evaluated and
may itself raise `TypeError` on a non-dict). -/
def checkSubFields (data : PyVal) (sub : String) (ks : List String)
    (msg : String) : Except PyExn Unit := do
  let s ← pySubscript data sub
  let oks ← ks.mapM (fun k => pyIn k s)
  if oks.all (· = true) then .ok ()
  else .error (.valueError msg)

/-- The validation block of judge.py lines 693–715; on success the data is
returned unchanged (line 723). -/
def validate_ats (data : PyVal) : Except PyExn PyVal := do
  checkFields data required_fields
  checkSubFields data "track_scores"
    ["product_based", "service_based", "incubator_startup"]
    "track_scores missing required fields"
  checkSubFields data "detailed_analysis"
    ["strengths", "weaknesses", "actionable_improvements"]
    "detailed_analysis missing required fields"
  checkSubFields data "interview_questions" ["technical", "behavioral"]
    "interview_questions missing required fields"
  .ok data

/-!  `judge.py` lines 358–848: `analyze_resume_ats`.

Abstractions: the credentials are indices `keys`; a provider call is the
oracle `f`; the response-object plumbing of lines 601–645 (parts joining,
finish-reason logging) is abstracted to the reply text carried by
`ProvResult.success`, to which `.strip()` is applied as on line 615 — an
empty stripped text triggers the `ValueError` of line 636, which the inner
`except (AttributeError, IndexError, KeyError, TypeError)` clause does not
catch; the debug side-file write of lines 657–664 and all `print` calls are
effect-free and omitted.  Provider exceptions are assumed to be
`google.genai` error classes, i.e. not `ValueError` or `JSONDecodeError`,
so an exception re-raised by line 588 reaches the generic
`except Exception` clause. -/

/-- The `ERROR` result returned when no credential is configured (judge.py
lines 375–394). -/
def no_api_key_result : PyVal :=
  .dict [
    ("candidate_name", .str "Error: No API Key"),
    ("overall_score", .int 0),
    ("verdict", .str "ERROR"),
    ("track_scores", .dict [
      ("product_based", .int 0),
      ("service_based", .int 0),
      ("incubator_startup", .int 0)]),
    ("detailed_analysis", .dict [
      ("strengths", .list [.str "System error: Missing API key(s)"]),
      ("weaknesses", .list []),
      ("actionable_improvements", .list [])]),
    ("interview_questions", .dict [
      ("technical", .str "None"),
      ("behavioral", .str "None")])]

/-- Truncation of `str(e)` to 150 characters, as in the handlers. -/
def take150 (s : String) : String :=
  String.mk (s.toList.take 150)

/-- The `ERROR` result of the `except json.JSONDecodeError` handler
(judge.py lines 725–755). -/
def parse_error_result (msg : String) : PyVal :=
  .dict [
    ("candidate_name", .str "Parse Error"),
    ("overall_score", .int 0),
    ("verdict", .str "ERROR"),
    ("track_scores", .dict [
      ("product_based", .int 0),
      ("service_based", .int 0),
      ("incubator_startup", .int 0)]),
    ("detailed_analysis", .dict [
      ("strengths", .list []),
      ("weaknesses", .list [
        .str "AI returned invalid JSON format (could not be repaired).",
        .str ("Parse error: " ++ take150 msg)]),
      ("actionable_improvements", .list [
        .str "Try again (temporary model formatting glitch).",
        .str "If it repeats, shorten the resume PDF (remove images) or try a text-based PDF.",
        .str "Lower request frequency if you are hitting rate limits."])]),
    ("interview_questions", .dict [
      ("technical", .str "None"),
      ("behavioral", .str "None")])]

/-- The `ERROR` result of the `API_AUTH_ERROR` branch (judge.py lines
768–794). -/
def api_auth_error_result : PyVal :=
  .dict [
    ("candidate_name", .str "API Auth Error"),
    ("overall_score", .int 0),
    ("verdict", .str "ERROR"),
    ("track_scores", .dict [
      ("product_based", .int 0),
      ("service_based", .int 0),
      ("incubator_startup", .int 0)]),
    ("detailed_analysis", .dict [
      ("strengths", .list []),
      ("weaknesses", .list [
        .str "Invalid or expired API key. Authentication failed with Google Gemini API."]),
      ("actionable_improvements", .list [
        .str "Verify your GOOGLE_API_KEY in the .env file is correct",
        .str "Optionally set GOOGLE_API_KEYS with comma-separated backup keys",
        .str "Check if your API key has expired or been revoked",
        .str "Generate a new API key from Google AI Studio if needed"])]),
    ("interview_questions", .dict [
      ("technical", .str "None - API authentication failed"),
      ("behavioral", .str "None - API authentication failed")])]

/-- The `ERROR` result of the generic `except Exception` handler (judge.py
lines 826–848). -/
def system_error_result (tyName msg : String) : PyVal :=
  .dict [
    ("candidate_name", .str "System Error"),
    ("overall_score", .int 0),
    ("verdict", .str "ERROR"),
    ("track_scores", .dict [
      ("product_based", .int 0),
      ("service_based", .int 0),
      ("incubator_startup", .int 0)]),
    ("detailed_analysis", .dict [
      ("strengths", .list []),
      ("weaknesses", .list [.str (tyName ++ ": " ++ take150 msg)]),
      ("actionable_improvements", .list [
        .str "Check server logs for detailed error information",
        .str "Verify API key is correctly configured",
        .str "Ensure network connectivity to Google API servers"])]),
    ("interview_questions", .dict [
      ("technical", .str "None"),
      ("behavioral", .str "None")])]

/-- Python `str(e)` of a modelled exception. -/
def pyExnStr : PyExn → String
  | .jsonDecode m => m
  | .valueError m => m
  | .typeError m => m
  | .attributeError m => m
  | .keyError m => m
  | .provider e => e.msg

/-- Python `type(e).__name__` of a modelled exception. -/
def pyExnTypeName : PyExn → String
  | .jsonDecode _ => "JSONDecodeError"
  | .valueError _ => "ValueError"
  | .typeError _ => "TypeError"
  | .attributeError _ => "AttributeError"
  | .keyError _ => "KeyError"
  | .provider e => e.tyName

/-- Processing of a successfully obtained response text (judge.py lines
599–723): `.strip()`, the empty-text `ValueError` of line 636, fence
stripping, JSON recovery, normalization, validation. -/
def processResponse (respText : String) : Except PyExn PyVal :=
  let raw_text := pyStrip respText
  if raw_text = "" then
    .error (.valueError "Could not extract text from response - response is empty")
  else
    match recoverJson (cleanResponseText raw_text) with
    | .error e => .error e
    | .ok d =>
      match _normalize_to_ats_schema d with
      | .error e => .error e
      | .ok data => validate_ats data

/-- Dispatch on the failover loop's outcome (judge.py lines 592–597 and
onward): re-raise an unclassified exception, classify total failure, or
process the response text. -/
def failoverDispatch (st : FailoverState) : Except PyExn PyVal :=
  match st.raised with
  | some e => .error (.provider e)
  | Option.none =>
    match st.response with
    | Option.none =>
      if st.quota_errors > 0 then .error (.valueError "API_QUOTA_EXCEEDED")
      else if st.auth_errors > 0 then .error (.valueError "API_AUTH_ERROR")
      else .error (.valueError "API_CALL_FAILED")
    | some respText => processResponse respText

/-- The body of the big `try` of `analyze_resume_ats` (judge.py lines
548–723): failover loop, overall failure classification, response-text
extraction, fence stripping, JSON recovery, normalization, validation. -/
def analyzeTryBody (f : Nat → String → ProvResult) (keys : List Nat) :
    Except PyExn PyVal :=
  failoverDispatch (runClients f keys 0 0)

/-- Top level of `analyze_resume_ats` (judge.py lines 358–848): the
no-credentials early return, the `try` body, and the three `except`
clauses.  Note the `except ValueError` clause re-raises (line 801) any
`ValueError` whose message is none of the three `API_*` sentinels, and a
re-raise from inside a handler is NOT caught by the following
`except Exception` clause — such exceptions escape to the caller, which is
why this function is `Except`-valued. -/
def analyze_resume_ats (f : Nat → String → ProvResult) (keys : List Nat)
    (resume_text : String) : Except PyExn PyVal :=
  if keys.isEmpty then .ok no_api_key_result
  else
    match analyzeTryBody f keys with
    | .ok d => .ok d
    | .error err =>
      match err with
      | .jsonDecode m => .ok (parse_error_result m)
      | .valueError m =>
        if m = "API_QUOTA_EXCEEDED" then
          .ok (_local_ats_fallback resume_text
            "API quota exceeded across available keys/models.")
        else if m = "API_AUTH_ERROR" then .ok api_auth_error_result
        else if m = "API_CALL_FAILED" then
          .ok (_local_ats_fallback resume_text
            "API call failed for all key/model combinations.")
        else .error (.valueError m)
      | e =>
        let s := pyExnStr e
        let ty := pyExnTypeName e
        let is_q := strContains s "429" || strContains (lowerStr s) "quota" ||
          strContains (lowerStr s) "rate limit" ||
          strContains (lowerStr s) "resource_exhausted" ||
          strContains ty "ClientError"
        if is_q then
          .ok (_local_ats_fallback resume_text
            "Runtime quota/rate error. Local fallback was used.")
        else .ok (system_error_result ty s)

/-!  `judge.py` lines 851–884: `judge_resume`. -/

/-- The ATS → legacy mapping of judge.py lines 861–884 applied to the
result `ats` of `analyze_resume_ats`. -/
def judge_resume_map (ats : PyVal) : Except PyExn PyVal :=
  match pyGet ats "overall_score" (.int 0) with
  | .error e => .error e
  | .ok overall =>
    match pyGet ats "verdict" (.str "ERROR") with
    | .error e => .error e
    | .ok verdict =>
      match pyGet ats "detailed_analysis" (.dict []) with
      | .error e => .error e
      | .ok da =>
        match pyGet da "weaknesses" (.list []) with
        | .error e => .error e
        | .ok weaknesses =>
          match pyGet da "actionable_improvements" (.list []) with
          | .error e => .error e
          | .ok improvements =>
            match pyGet ats "interview_questions" (.dict []) with
            | .error e => .error e
            | .ok iq =>
              match pyGet iq "technical" (.str "None") with
              | .error e => .error e
              | .ok tech_q =>
                match pyGet ats "candidate_name" (.str "Unknown") with
                | .error e => .error e
                | .ok cname =>
                  .ok (.dict [
                    ("candidate_name", cname),
                    ("signal_score",
                      .int (if pyIsInt overall then pyIntOf overall else 0)),
                    ("verdict", .str
                      (if pyEqStr verdict "Shortlist" then "PASS"
                       else if pyEqStr verdict "Borderline" then "REJECTED"
                       else if pyEqStr verdict "Reject" then "REJECTED"
                       else if pyEqStr verdict "ERROR" then "ERROR"
                       else "REJECTED")),
                    ("red_flags",
                      if pyIsList weaknesses then weaknesses else .list []),
                    ("brutal_feedback",
                      match improvements with
                      | .list (x :: _) => x
                      | _ => .str "No feedback provided"),
                    ("interview_question", tech_q)])

/-- Legacy API `judge_resume` (judge.py lines 851–884): delegates to
`analyze_resume_ats` and remaps the schema; `track` is accepted and
ignored, as in the source. -/
def judge_resume (f : Nat → String → ProvResult) (keys : List Nat)
    (resume_text : String) (track : String) : Except PyExn PyVal :=
  (analyze_resume_ats f keys resume_text).bind judge_resume_map

/-!  Spec-side grammar for claim C6 ("balanced extraction correctness").

`StrBody` describes the inside of a JSON string literal: any characters,
with `"` and `\` occurring only via an escape pair `\c`.  `BalancedSeq`
describes a run of JSON-object-body text: ordinary characters, complete
string literals, and complete nested `{...}` objects.  `IsJsonObjectText`
is a braces-and-strings superset of the syntactically valid JSON objects:
every valid JSON object text (escapes respected, backslash only inside
strings) satisfies it, so the extraction theorem proved over this predicate
covers every valid JSON object the claim quantifies over. -/

/-- Body of a JSON string literal, between the delimiting quotes. -/
inductive StrBody : List Char → Prop where
  | nil : StrBody []
  | plain (c : Char) (s : List Char) (h1 : c ≠ '"') (h2 : c ≠ '\\')
      (hs : StrBody s) : StrBody (c :: s)
  | esc (c : Char) (s : List Char) (hs : StrBody s) : StrBody ('\\' :: c :: s)

/-- A balanced run of JSON text outside string literals: ordinary
characters, whole string literals, and whole nested objects. -/
inductive BalancedSeq : List Char → Prop where
  | nil : BalancedSeq []
  | other (c : Char) (s : List Char) (h1 : c ≠ '{') (h2 : c ≠ '}')
      (h3 : c ≠ '"') (h4 : c ≠ '\\') (hs : BalancedSeq s) :
      BalancedSeq (c :: s)
  | lit (b s : List Char) (hb : StrBody b) (hs : BalancedSeq s) :
      BalancedSeq ('"' :: b ++ '"' :: s)
  | obj (inner s : List Char) (hi : BalancedSeq inner) (hs : BalancedSeq s) :
      BalancedSeq ('{' :: inner ++ '}' :: s)

/-- Text of one complete JSON object: `{`, a balanced body, `}`. -/
def IsJsonObjectText (J : List Char) : Prop :=
  ∃ inner, BalancedSeq inner ∧ J = '{' :: inner ++ ['}']

/-!  Scanner lemmas for claim C6: a `StrBody` is consumed by `jsonScan`
without leaving string mode, and a `BalancedSeq` is consumed at any depth
`d ≥ 1` without the scan terminating, each shifting the result by its
length. -/

theorem toList_mk (l : List Char) : (String.mk l).toList = l := rfl

theorem findCharIdx_append (ch : Char) (A rest : List Char)
    (hA : ch ∉ A) :
    findCharIdx ch (A ++ ch :: rest) = some A.length := by
  induction A with
  | nil => simp [findCharIdx]
  | cons a A ih =>
    have ha : a ≠ ch := by
      intro hc
      exact hA (hc ▸ List.mem_cons_self a A)
    simp only [List.cons_append, findCharIdx, ha, if_false, List.length_cons,
      List.append_eq]
    rw [ih (fun hc => hA (List.mem_cons_of_mem a hc))]
    simp

theorem jsonScan_strBody (b : List Char) (hb : StrBody b) :
    ∀ (t : List Char) (d : Int),
      jsonScan (b ++ t) d true false = (jsonScan t d true false).map (· + b.length) := by
  induction hb with
  | nil =>
    intro t d
    cases h : jsonScan t d true false <;> simp [h]
  | plain c s h1 h2 _ ih =>
    intro t d
    simp only [List.cons_append, jsonScan, h1, h2, if_false, if_true,
      Bool.false_eq_true, List.length_cons, List.append_eq]
    rw [ih t d]
    cases h : jsonScan t d true false <;> simp [h] <;> omega
  | esc c s _ ih =>
    intro t d
    simp only [List.cons_append, jsonScan, if_true, Bool.false_eq_true, if_false,
      List.length_cons, List.append_eq]
    rw [ih t d]
    cases h : jsonScan t d true false <;> simp [h] <;> omega

theorem jsonScan_balanced (s : List Char) (hs : BalancedSeq s) :
    ∀ (t : List Char) (d : Int), 1 ≤ d →
      jsonScan (s ++ t) d false false = (jsonScan t d false false).map (· + s.length) := by
  induction hs with
  | nil =>
    intro t d _
    cases h : jsonScan t d false false <;> simp [h]
  | other c s h1 h2 h3 h4 _ ih =>
    intro t d hd
    simp only [List.cons_append, jsonScan, h1, h2, h3, h4, if_false,
      Bool.false_eq_true, List.length_cons, List.append_eq]
    rw [ih t d hd]
    cases h : jsonScan t d false false <;> simp [h] <;> omega
  | lit b s hb _ ih =>
    intro t d hd
    have e1 : ('"' :: b ++ '"' :: s) ++ t = '"' :: (b ++ ('"' :: (s ++ t))) := by simp
    rw [e1]
    have e2 : jsonScan ('"' :: (b ++ ('"' :: (s ++ t)))) d false false
        = (jsonScan (b ++ ('"' :: (s ++ t))) d true false).map (· + 1) := rfl
    rw [e2, jsonScan_strBody b hb]
    have e3 : jsonScan ('"' :: (s ++ t)) d true false
        = (jsonScan (s ++ t) d false false).map (· + 1) := rfl
    rw [e3, ih t d hd]
    cases h : jsonScan t d false false <;> simp [h] <;> omega
  | obj inner s _ _ ih_i ih_s =>
    intro t d hd
    have e1 : ('{' :: inner ++ '}' :: s) ++ t = '{' :: (inner ++ ('}' :: (s ++ t))) := by
      simp
    rw [e1]
    have e2 : jsonScan ('{' :: (inner ++ ('}' :: (s ++ t)))) d false false
        = (jsonScan (inner ++ ('}' :: (s ++ t))) (d + 1) false false).map (· + 1) := rfl
    rw [e2, ih_i ('}' :: (s ++ t)) (d + 1) (by omega)]
    have e3 : jsonScan ('}' :: (s ++ t)) (d + 1) false false
        = if d + 1 - 1 = 0 then some 1
          else (jsonScan (s ++ t) (d + 1 - 1) false false).map (· + 1) := rfl
    rw [e3, if_neg (by omega : ¬(d + 1 - 1 = 0))]
    have e4 : d + 1 - 1 = d := by omega
    rw [e4, ih_s t d hd]
    cases h : jsonScan t d false false <;> simp [h] <;> omega

theorem c6_pre (A inner B : List Char) (hA : '{' ∉ A)
    (hi : BalancedSeq inner) :
    _extract_first_json_object (String.mk (A ++ ('{' :: inner ++ ['}']) ++ B)) =
      some (String.mk ('{' :: inner ++ ['}'])) := by
  have e0 : (String.mk (A ++ ('{' :: inner ++ ['}']) ++ B)).toList
      = A ++ '{' :: (inner ++ ('}' :: B)) := by
    rw [toList_mk]; simp
  unfold _extract_first_json_object
  rw [e0, findCharIdx_append '{' A _ hA, Option.some_bind,
    List.drop_left A ('{' :: (inner ++ ('}' :: B)))]
  have e2 : jsonScan ('{' :: (inner ++ ('}' :: B))) 0 false false
      = (jsonScan (inner ++ ('}' :: B)) (0 + 1) false false).map (· + 1) := rfl
  have e5 : (0 : Int) + 1 = 1 := by omega
  rw [e2, e5, jsonScan_balanced inner hi ('}' :: B) 1 (by omega)]
  have e3 : jsonScan ('}' :: B) 1 false false = some 1 := rfl
  rw [e3]
  have e4 : (('{' :: (inner ++ ('}' :: B)))).take (1 + inner.length + 1)
      = '{' :: inner ++ ['}'] := by
    have e6 : '{' :: (inner ++ ('}' :: B)) = ('{' :: inner ++ ['}']) ++ B := by simp
    rw [e6, List.take_left' (by simp; omega)]
  simp [e4]

/-!  Claim theorems.  Each claim of the specification review is settled by
exactly one theorem below (with a witness where the theorem carries a
hypothesis, and a counterexample where the claim as stated fails on the
code). -/

set_option maxRecDepth 40000

/-- C1: the claim says the exposed operation (`analyze_resume_ats`) never
propagates an exception to the caller and reports unrecoverable
system-level failures only via an `ERROR`-verdict result.  The code
violates this: with one credential configured and a provider reply whose
text is empty, the `ValueError` raised at judge.py line 636 is caught by
the `except ValueError` clause, matches none of the three `API_*`
sentinels, and is re-raised at line 801 — and a re-raise from inside a
handler is not caught by the following `except Exception` clause, so the
exception reaches the caller. -/
theorem c1_scoreResume_raises_on_empty_provider_text :
    analyze_resume_ats (fun _ _ => .success "") [0] "JOHN DOE" =
      .error (.valueError "Could not extract text from response - response is empty") := by
  rfl

/-- C4: the claim says a detected missing required field is converted into
an `ERROR`-verdict result and never propagated as an exception.  The code
violates this: a provider reply `(x : 1)` (a JSON object with only key
`x`) parses directly, passes through normalization unchanged, and makes
the validator raise `ValueError("Missing required field: candidate_name")`
at judge.py line 698, which the `except ValueError` clause re-raises at
line 801 past the function boundary. -/
theorem c4_schema_violation_escapes_as_exception :
    analyze_resume_ats (fun _ _ => .success "\x7b\x22x\x22: 1\x7d") [0] "JOHN DOE" =
      .error (.valueError "Missing required field: candidate_name") := by
  rfl

/-- C2, counterexample: with credentials `[0, 1]` and the configured model
list, when credential 0 × `gemini-2.5-flash` fails with a quota-classified
error, the controller's next (and here final) attempt is credential 0 ×
`gemini-1.5-flash` — the same credential's next model — so the attempt
trace is not the `[(k1,m1), (k2,m1)]` the claim requires. -/
theorem c2_counterexample_quota_then_same_credential_next_model :
    (runClients
      (fun k m =>
        if k = 0 && m = "gemini-2.5-flash" then
          ProvResult.exc
            ⟨"429 RESOURCE_EXHAUSTED: quota exceeded", "ClientError 429", "ClientError"⟩
        else ProvResult.success "ok")
      [0, 1] 0 0).attempts = [(0, "gemini-2.5-flash"), (0, "gemini-1.5-flash")] ∧
    ([(0, "gemini-2.5-flash"), (0, "gemini-1.5-flash")] :
        List (Nat × String)) ≠ [(0, "gemini-2.5-flash"), (1, "gemini-2.5-flash")] :=
  ⟨rfl, by decide⟩

/-- Helper for C2: under a quota error on the first model, the inner model
loop records exactly the two model attempts for that credential. -/
theorem runModels_attempts_pair (f : Nat → String → ProvResult) (k : Nat)
    (a q : Nat) (e : PyExcInfo)
    (hf : f k "gemini-2.5-flash" = .exc e)
    (hauth : _is_auth_error e = false) (hquota : _is_quota_error e = true) :
    (runModels f k model_candidates a q).attempts =
      [(k, "gemini-2.5-flash"), (k, "gemini-1.5-flash")] := by
  simp only [model_candidates, runModels, hf, hauth, hquota, Bool.false_eq_true,
    if_false, if_true]
  cases h2 : f k "gemini-1.5-flash" <;> simp [h2, runModels] <;> split_ifs <;>
    simp [runModels]

/-- C2, amended: a quota-classified error on a credential×model attempt
`continue`s with the next model under the same credential (exactly like an
auth error; judge.py line 587); given credentials `[k1, ...]` and models
`[m1, m2]`, if `k1×m1` fails with a quota error then the first two attempts
made are `k1×m1` and `k1×m2` — the next attempt is `k1×m2`, never
`k2×m1`. -/
theorem c2_amended_quota_tries_next_model_first (f : Nat → String → ProvResult)
    (k : Nat) (ks : List Nat) (a q : Nat) (e : PyExcInfo)
    (hf : f k "gemini-2.5-flash" = .exc e)
    (hauth : _is_auth_error e = false) (hquota : _is_quota_error e = true) :
    (runClients f (k :: ks) a q).attempts.take 2 =
      [(k, "gemini-2.5-flash"), (k, "gemini-1.5-flash")] := by
  have hm := runModels_attempts_pair f k a q e hf hauth hquota
  simp only [runClients]
  cases hst : runModels f k model_candidates a q with
  | mk att resp ae qe rz =>
    rw [hst] at hm
    simp only at hm
    subst hm
    cases rz <;> cases resp <;> simp

/-- C2, witness for the amended theorem at the counterexample's oracle. -/
theorem c2_amended_witness :
    (runClients
      (fun k m =>
        if k = 0 && m = "gemini-2.5-flash" then
          ProvResult.exc
            ⟨"429 RESOURCE_EXHAUSTED: quota exceeded", "ClientError 429", "ClientError"⟩
        else ProvResult.success "ok")
      [0, 1] 0 0).attempts.take 2 =
      [(0, "gemini-2.5-flash"), (0, "gemini-1.5-flash")] :=
  c2_amended_quota_tries_next_model_first _ 0 [1] 0 0
    ⟨"429 RESOURCE_EXHAUSTED: quota exceeded", "ClientError 429", "ClientError"⟩
    rfl rfl rfl

/-- C3, counterexample: `judge.py` defines no CooldownState — the module's
only provider-related state is the credential list, so `analyze_resume_ats`
is a pure function of the provider oracle and calls are independent.
Directly after a call whose outcome is classified `quota_exceeded` (first
conjunct — the claimed moment the 10-minute cooldown would be set), an
identical immediately-following call, for which the claim demands zero
network attempts, still performs all four credential×model network
attempts (second conjunct). -/
theorem c3_counterexample_repeat_call_still_attempts :
    analyze_resume_ats (fun _ _ => .exc ⟨"429 quota", "429", "ClientError"⟩)
        [0, 1] "JOHN" =
      .ok (_local_ats_fallback "JOHN" "API quota exceeded across available keys/models.") ∧
    (runClients (fun _ _ => ProvResult.exc ⟨"429 quota", "429", "ClientError"⟩)
      [0, 1] 0 0).attempts.length = 4 ∧ (4 : Nat) ≠ 0 :=
  ⟨rfl, rfl, by decide⟩

/-- Helper for C3: when every attempt for a credential is quota-classified,
the inner loop tries both models and increments the quota counter twice. -/
theorem runModels_all_quota (f : Nat → String → ProvResult) (k : Nat) (a q : Nat)
    (hq : ∀ m, ∃ e, f k m = .exc e ∧ _is_auth_error e = false ∧
      _is_quota_error e = true) :
    runModels f k model_candidates a q =
      ⟨[(k, "gemini-2.5-flash"), (k, "gemini-1.5-flash")], Option.none, a, q + 2,
        Option.none⟩ := by
  obtain ⟨e1, hf1, ha1, hq1⟩ := hq "gemini-2.5-flash"
  obtain ⟨e2, hf2, ha2, hq2⟩ := hq "gemini-1.5-flash"
  simp [model_candidates, runModels, hf1, ha1, hq1, hf2, ha2, hq2]
  try omega

/-- Helper for C3: when every attempt is quota-classified, the failover
loop exhausts the whole cross-product with only quota errors. -/
theorem runClients_all_quota (f : Nat → String → ProvResult) (keys : List Nat)
    (a q : Nat)
    (hq : ∀ k m, ∃ e, f k m = .exc e ∧ _is_auth_error e = false ∧
      _is_quota_error e = true) :
    (runClients f keys a q).response = Option.none ∧
    (runClients f keys a q).raised = Option.none ∧
    (runClients f keys a q).quota_errors = q + 2 * keys.length ∧
    (runClients f keys a q).attempts.length = 2 * keys.length := by
  induction keys generalizing q with
  | nil => simp [runClients]
  | cons k ks ih =>
    have hm := runModels_all_quota f k a q (fun m => hq k m)
    obtain ⟨h1, h2, h3, h5⟩ := ih (q + 2)
    simp only [runClients, hm]
    simp [h1, h2, h3, h5]
    omega

/-- C3, amended: the code maintains no cooldown state, so even a call made
entirely of quota-classified failures attempts the full credential×model
cross-product (2·|keys| network attempts) and is routed, for that call
only, to the Local Heuristic Fallback Scorer; nothing is recorded for
later calls. -/
theorem c3_amended_no_cooldown_state (f : Nat → String → ProvResult)
    (keys : List Nat) (r : String)
    (hq : ∀ k m, ∃ e, f k m = .exc e ∧ _is_auth_error e = false ∧
      _is_quota_error e = true)
    (hk : keys ≠ []) :
    analyze_resume_ats f keys r =
      .ok (_local_ats_fallback r "API quota exceeded across available keys/models.") ∧
    (runClients f keys 0 0).attempts.length = 2 * keys.length := by
  obtain ⟨h1, h2, h3, h5⟩ := runClients_all_quota f keys 0 0 hq
  have hke : keys.isEmpty = false := by
    cases keys with
    | nil => exact absurd rfl hk
    | cons a l => rfl
  have hlen : 0 < keys.length := by
    cases keys with
    | nil => exact absurd rfl hk
    | cons a l => simp
  have hq0 : 0 + 2 * keys.length > 0 := by omega
  refine ⟨?_, h5⟩
  have hd : analyzeTryBody f keys = .error (.valueError "API_QUOTA_EXCEEDED") := by
    unfold analyzeTryBody failoverDispatch
    rw [h2, h1, h3]
    simp [hq0]
    intro h0
    exact absurd h0 hk
  unfold analyze_resume_ats
  rw [hke, hd]
  simp

/-- C3, witness for the amended theorem: two credentials, all attempts
quota-failing. -/
theorem c3_amended_witness :
    analyze_resume_ats (fun _ _ => .exc ⟨"429 quota", "429", "ClientError"⟩)
        [0, 1] "JOHN DOE" =
      .ok (_local_ats_fallback "JOHN DOE"
        "API quota exceeded across available keys/models.") ∧
    (runClients (fun _ _ => ProvResult.exc ⟨"429 quota", "429", "ClientError"⟩)
      [0, 1] 0 0).attempts.length = 2 * ([0, 1] : List Nat).length :=
  c3_amended_no_cooldown_state _ [0, 1] "JOHN DOE"
    (fun _ _ => ⟨⟨"429 quota", "429", "ClientError"⟩, rfl, rfl, rfl⟩) (by decide)

/-- C5, counterexample: on raw text `x (a : )` — junk, then an extractable
but irreparably malformed object — direct parse fails, balanced extraction
succeeds, and the repaired extract still fails to parse, so the
`json.JSONDecodeError` raised at judge.py line 676 escapes the recovery
block: minimal-payload synthesis is not reached and the pipeline does not
return a dict. -/
theorem c5_counterexample_extraction_parse_failure_escapes :
    _extract_first_json_object "x \x7b\x22a\x22: \x7d" = some "\x7b\x22a\x22: \x7d" ∧
    recoverJson "x \x7b\x22a\x22: \x7d" = .error (.jsonDecode "Expecting value") :=
  ⟨rfl, rfl⟩

/-- C5, amended: the recovery pipeline returns a dict without raising for
every raw text on which balanced extraction does not succeed — on that
branch partial-section salvage, whole-text repair and the terminal,
always-succeeding minimal-payload synthesis guarantee a dict.  (When
extraction succeeds, the repaired extract's parse failure escapes the
block as a `JSONDecodeError` and is converted to a Parse-Error
`ERROR`-verdict result by the enclosing handler.) -/
theorem c5_amended_recovery_total_without_extraction (s : String)
    (h : _extract_first_json_object s = Option.none) :
    (recoverJson s).isOk = true := by
  unfold recoverJson
  cases hj : json_loads s with
  | ok d => rfl
  | error e =>
    simp only [h]
    cases hs : _salvage_without_detailed_analysis s with
    | some d => rfl
    | none =>
      simp only []
      cases hr : json_loads (_repair_common_json_issues s) <;> rfl

/-- C5, witness for the amended theorem on text with no brace at all. -/
theorem c5_amended_witness : (recoverJson "no json at all").isOk = true :=
  c5_amended_recovery_total_without_extraction "no json at all" rfl

/-- C6: for text `A ++ J ++ B` where `A` contains no opening brace and `J`
is the text of one complete JSON object — `IsJsonObjectText`, whose
balanced-braces-and-escaped-strings grammar contains every syntactically
valid JSON object, including objects with brace characters inside string
literals — `_extract_first_json_object` returns exactly `J`.  `B` needs no
restriction, since the scan ends at `J`'s final brace. -/
theorem c6_balanced_extraction_returns_the_object (A J B : List Char)
    (hA : '{' ∉ A) (hJ : IsJsonObjectText J) :
    _extract_first_json_object (String.mk (A ++ J ++ B)) = some (String.mk J) := by
  obtain ⟨inner, hi, rfl⟩ := hJ
  exact c6_pre A inner B hA hi

/-- C6, witness: extraction from junk + object + junk where the object's
string value contains a closing brace. -/
theorem c6_witness_concrete :
    _extract_first_json_object
        (String.mk (" x ".toList ++ "\x7b\x22k\x22:\x22v\x7d\x22\x7d".toList ++
          " tail".toList)) =
      some (String.mk "\x7b\x22k\x22:\x22v\x7d\x22\x7d".toList) := by
  have hb1 : StrBody ['k'] := StrBody.plain 'k' [] (by decide) (by decide) StrBody.nil
  have hb2 : StrBody ['v', '}'] :=
    StrBody.plain 'v' ['}'] (by decide) (by decide)
      (StrBody.plain '}' [] (by decide) (by decide) StrBody.nil)
  have hs1 : BalancedSeq ('"' :: ['v', '}'] ++ '"' :: []) :=
    BalancedSeq.lit _ _ hb2 BalancedSeq.nil
  have hs2 : BalancedSeq (':' :: ('"' :: ['v', '}'] ++ '"' :: [])) :=
    BalancedSeq.other ':' _ (by decide) (by decide) (by decide) (by decide) hs1
  have hinner :
      BalancedSeq ('"' :: ['k'] ++ '"' :: (':' :: ('"' :: ['v', '}'] ++ '"' :: []))) :=
    BalancedSeq.lit _ _ hb1 hs2
  exact c6_balanced_extraction_returns_the_object _ _ _ (by decide)
    ⟨_, hinner, by decide⟩

/-- Helper for C7: every successful output of `_normalize_to_ats_schema` is
one of its fixed points — pass-through inputs are returned unchanged and
the legacy remap's output carries the three canonical keys, so a second
application takes the already-canonical branch. -/
theorem normalize_fixpoint (x y : PyVal)
    (h : _normalize_to_ats_schema x = .ok y) :
    _normalize_to_ats_schema y = .ok y := by
  cases x with
  | dict kvs =>
    simp only [_normalize_to_ats_schema] at h
    split at h
    case isTrue h1 =>
      cases h
      simp only [_normalize_to_ats_schema]
      rw [if_pos h1]
    case isFalse h1 =>
      split at h
      case isTrue h2 =>
        split at h
        case h_1 vs heq =>
          cases h
          rfl
        all_goals exact (Except.noConfusion h)
      case isFalse h2 =>
        cases h
        simp only [_normalize_to_ats_schema]
        rw [if_neg h1, if_neg h2]
  | none => simp only [_normalize_to_ats_schema] at h; cases h; rfl
  | bool b => simp only [_normalize_to_ats_schema] at h; cases h; rfl
  | int n => simp only [_normalize_to_ats_schema] at h; cases h; rfl
  | pfloat q => simp only [_normalize_to_ats_schema] at h; cases h; rfl
  | nan => simp only [_normalize_to_ats_schema] at h; cases h; rfl
  | inf => simp only [_normalize_to_ats_schema] at h; cases h; rfl
  | ninf => simp only [_normalize_to_ats_schema] at h; cases h; rfl
  | str s => simp only [_normalize_to_ats_schema] at h; cases h; rfl
  | list l => simp only [_normalize_to_ats_schema] at h; cases h; rfl

/-- C7: schema normalization is idempotent — for every input,
`normalize(normalize(x)) = normalize(x)` as Kleisli composition in the
exception monad: already-canonical and unrecognized inputs pass through
unchanged, the legacy remap's output is itself canonical and hence a fixed
point, and an input on which the legacy branch raises (a truthy non-string
`verdict`) makes both sides raise identically. -/
theorem c7_normalize_idempotent (x : PyVal) :
    (_normalize_to_ats_schema x).bind _normalize_to_ats_schema =
      _normalize_to_ats_schema x := by
  cases h : _normalize_to_ats_schema x with
  | error e => rfl
  | ok y => exact normalize_fixpoint x y h

/-- C8: for every resume text and reason string, the Local Heuristic
Fallback Scorer's `overall_score` is the clamped keyword score
`max 30 (min score 82)`, which lies in [30, 82], and its three track
scores are the independently clamped offsets, each in [0, 100]. -/
theorem c8_fallback_bounds (r reason : String) :
    pyGet (_local_ats_fallback r reason) "overall_score" (.int (-1)) =
      .ok (.int (fallbackScore r)) ∧
    (30 ≤ fallbackScore r ∧ fallbackScore r ≤ 82) ∧
    pyGet (_local_ats_fallback r reason) "track_scores" (.int (-1)) =
      .ok (.dict [
        ("product_based", .int (max 0 (min 100 (fallbackScore r - 2)))),
        ("service_based", .int (max 0 (min 100 (fallbackScore r + 2)))),
        ("incubator_startup", .int (max 0 (min 100 (fallbackScore r + 1))))]) ∧
    (0 ≤ max 0 (min 100 (fallbackScore r - 2)) ∧
      max 0 (min 100 (fallbackScore r - 2)) ≤ 100) ∧
    (0 ≤ max 0 (min 100 (fallbackScore r + 2)) ∧
      max 0 (min 100 (fallbackScore r + 2)) ≤ 100) ∧
    (0 ≤ max 0 (min 100 (fallbackScore r + 1)) ∧
      max 0 (min 100 (fallbackScore r + 1)) ≤ 100) := by
  refine ⟨rfl, ⟨?_, ?_⟩, rfl, ⟨?_, ?_⟩, ⟨?_, ?_⟩, ⟨?_, ?_⟩⟩ <;>
    (unfold fallbackScore; omega)

/-- C9, counterexample: with supplied reason `""`, the weaknesses list of
the fallback result begins with the default degraded-mode message rather
than the supplied reason — `note = reason or default` (judge.py line 311)
replaces a falsy reason, so the empty reason never appears in the list. -/
theorem c9_counterexample_empty_reason_not_first :
    (pyGet (_local_ats_fallback "x" "") "detailed_analysis" (.dict [])).bind
        (fun da => pyGet da "weaknesses" (.list [])) =
      .ok (.list [
        .str "Cloud model unavailable; used local heuristic evaluation.",
        .str "This score is approximate and less detailed than LLM output.",
        .str "Re-run after quota reset for richer ATS analysis."]) ∧
    "Cloud model unavailable; used local heuristic evaluation." ≠ "" :=
  ⟨rfl, by decide⟩

/-- C9, amended: for every resume text and every NON-EMPTY supplied reason
string, the fallback's weaknesses list contains the supplied reason as its
first element (an empty reason is replaced by the default degraded-mode
message). -/
theorem c9_amended_reason_first_when_nonempty (r reason : String)
    (h : reason ≠ "") :
    (pyGet (_local_ats_fallback r reason) "detailed_analysis" (.dict [])).bind
        (fun da => pyGet da "weaknesses" (.list [])) =
      .ok (.list [.str reason,
        .str "This score is approximate and less detailed than LLM output.",
        .str "Re-run after quota reset for richer ATS analysis."]) := by
  simp [_local_ats_fallback, pyGet, dictLookup, h, Except.bind]

/-- C9, witness for the amended theorem at a non-empty reason. -/
theorem c9_amended_witness :
    (pyGet (_local_ats_fallback "JOHN" "quota exhausted") "detailed_analysis"
        (.dict [])).bind (fun da => pyGet da "weaknesses" (.list [])) =
      .ok (.list [.str "quota exhausted",
        .str "This score is approximate and less detailed than LLM output.",
        .str "Re-run after quota reset for richer ATS analysis."]) :=
  c9_amended_reason_first_when_nonempty "JOHN" "quota exhausted" (by decide)

set_option maxHeartbeats 2000000

/-- Helper for C10: `dict.get(k)` on a dict whose first entry has key `k`
returns that entry's value. -/
theorem pyGet_head (k : String) (w : PyVal) (d : List (String × PyVal))
    (dflt : PyVal) : pyGet (.dict ((k, w) :: d)) k dflt = .ok w := by
  simp [pyGet, dictLookup]

/-- C10: whenever the legacy wrapper's mapping succeeds on an ATS result
whose `verdict` is `Shortlist` / `ERROR` / `Borderline` / `Reject`, the
legacy verdict is `PASS` / `ERROR` / `REJECTED` / `REJECTED` respectively;
and for every remaining ATS payload `d`, the complete legacy results for
verdict `Borderline` and verdict `Reject` are identical — a Borderline ATS
result is indistinguishable from a Reject through the legacy API. -/
theorem c10_legacy_verdict_mapping (d : List (String × PyVal)) (v : String)
    (r : PyVal)
    (h : judge_resume_map (.dict (("verdict", .str v) :: d)) = .ok r) :
    ((v = "Shortlist" → pyGet r "verdict" (.str "") = .ok (.str "PASS")) ∧
     (v = "ERROR" → pyGet r "verdict" (.str "") = .ok (.str "ERROR")) ∧
     (v = "Borderline" → pyGet r "verdict" (.str "") = .ok (.str "REJECTED")) ∧
     (v = "Reject" → pyGet r "verdict" (.str "") = .ok (.str "REJECTED"))) ∧
    judge_resume_map (.dict (("verdict", .str "Borderline") :: d)) =
      judge_resume_map (.dict (("verdict", .str "Reject") :: d)) := by
  constructor
  · refine ⟨?_, ?_, ?_, ?_⟩ <;> (intro hv; subst hv) <;>
      (unfold judge_resume_map at h; simp only [pyGet_head] at h;
       repeat' split at h) <;>
      first
        | exact (Except.noConfusion h)
        | (injection h with h2; subst h2;
           simp_all [pyGet, dictLookup, pyEqStr])
  · rfl

/-- C10, witness: the minimal ATS dict holding only a `Borderline` verdict. -/
theorem c10_witness :
    ((("Borderline" : String) = "Shortlist" →
        pyGet (PyVal.dict [("candidate_name", .str "Unknown"),
          ("signal_score", .int 0), ("verdict", .str "REJECTED"),
          ("red_flags", .list []),
          ("brutal_feedback", .str "No feedback provided"),
          ("interview_question", .str "None")]) "verdict" (.str "") =
          .ok (.str "PASS")) ∧
     (("Borderline" : String) = "ERROR" →
        pyGet (PyVal.dict [("candidate_name", .str "Unknown"),
          ("signal_score", .int 0), ("verdict", .str "REJECTED"),
          ("red_flags", .list []),
          ("brutal_feedback", .str "No feedback provided"),
          ("interview_question", .str "None")]) "verdict" (.str "") =
          .ok (.str "ERROR")) ∧
     (("Borderline" : String) = "Borderline" →
        pyGet (PyVal.dict [("candidate_name", .str "Unknown"),
          ("signal_score", .int 0), ("verdict", .str "REJECTED"),
          ("red_flags", .list []),
          ("brutal_feedback", .str "No feedback provided"),
          ("interview_question", .str "None")]) "verdict" (.str "") =
          .ok (.str "REJECTED")) ∧
     (("Borderline" : String) = "Reject" →
        pyGet (PyVal.dict [("candidate_name", .str "Unknown"),
          ("signal_score", .int 0), ("verdict", .str "REJECTED"),
          ("red_flags", .list []),
          ("brutal_feedback", .str "No feedback provided"),
          ("interview_question", .str "None")]) "verdict" (.str "") =
          .ok (.str "REJECTED"))) ∧
    judge_resume_map (.dict (("verdict", .str "Borderline") :: [])) =
      judge_resume_map (.dict (("verdict", .str "Reject") :: [])) :=
  c10_legacy_verdict_mapping [] "Borderline"
    (PyVal.dict [("candidate_name", .str "Unknown"), ("signal_score", .int 0),
      ("verdict", .str "REJECTED"), ("red_flags", .list []),
      ("brutal_feedback", .str "No feedback provided"),
      ("interview_question", .str "None")]) rfl

end JudgeModel
